import Mathlib

/-!
Shallow embedding of the CLARE pretraining launcher (train.py).

The script parses three argument groups, configures logging, seeds the global
PRNG, materializes a remote Arrow dataset, dispatches on model_type to a
(generator, discriminator) class pair, instantiates the pair, logs the
discriminator parameter count, builds a Trainer and runs it.  External library
calls (GCS/pyarrow dataset load, pretrained tokenizer/config fetches, the
trainer loop) are modelled as an oracle, and the run is recorded as an event
trace together with an Except-valued result.
-/

/-- Source line 24: the declared model sizes. -/
def MODEL_SIZES : List String := ["small", "base", "large"]

/-- Source line 25: the declared model types. -/
def MODEL_TYPES : List String := ["AMCLR", "ELECTRA", "AMOS"]

/-- Source lines 28-37: both fields are Optional with default None. -/
structure ModelArguments where
  model_size : Option String
  model_type : Option String
deriving DecidableEq, Repr

/-- Source lines 40-45: dataset_name is Optional with default None. -/
structure DataTrainingArguments where
  dataset_name : Option String
deriving DecidableEq, Repr

/-- Modelled from the spec: TrainingArguments is the external trainer component
hyperparameter bag (not part of this repository); the spec records that the
external schema mandates an output directory and carries an integer seed. -/
structure TrainingArgs where
  output_dir : String
  seed : Nat
deriving DecidableEq, Repr

/-- Error taxonomy of the specification (section 7). -/
inductive RunError where
  | configurationError (msg : String)
  | dataLoadError (msg : String)
  | modelResolutionError (msg : String)
  | registryError (msg : String)
  | trainingFailure (msg : String)
deriving DecidableEq, Repr

/-- Decimal value of a digit character. -/
def digitVal (c : Char) : Option Nat :=
  if 48 ≤ c.toNat ∧ c.toNat ≤ 57 then some (c.toNat - 48) else none

/-- Accumulating decimal interpretation of a character list. -/
def digitsToNat : Nat → List Char → Option Nat
  | acc, [] => some acc
  | acc, c :: cs =>
    match digitVal c with
    | some d => digitsToNat (acc * 10 + d) cs
    | none => none

/-- Decimal interpretation of a string, as the argument parser applies to the
integer-typed seed field. -/
def strToNat (s : String) : Option Nat :=
  match s.data with
  | [] => none
  | cs => digitsToNat 0 cs

/-- Argument field names recognized by the HfArgumentParser built from the
three dataclasses (the two of the source plus the external TrainingArguments,
of which we model the spec-mandated output directory and seed). -/
def hfFieldNames : List String :=
  ["model_size", "model_type", "dataset_name", "output_dir", "seed"]

/-- Source lines 50-51 (parser.parse_args_into_dataclasses): unknown argument
names are rejected by the external parser; the fields of ModelArguments and
DataTrainingArguments are Optional with default None, so a missing
model_size, model_type or dataset_name parses to none with no validation
against MODEL_SIZES or MODEL_TYPES.  The output_dir requirement and the seed
default of 42 are modelled from the spec (external TrainingArguments schema). -/
def parseArgsIntoDataclasses (args : List (String × String)) :
    Except RunError (ModelArguments × DataTrainingArguments × TrainingArgs) :=
  if args.all (fun kv => hfFieldNames.contains kv.1) then
    match args.lookup "output_dir" with
    | none => Except.error (RunError.configurationError "output_dir is required")
    | some out =>
        Except.ok
          ({ model_size := args.lookup "model_size",
             model_type := args.lookup "model_type" },
           { dataset_name := args.lookup "dataset_name" },
           { output_dir := out,
             seed := ((args.lookup "seed").bind strToNat).getD 42 })
  else Except.error (RunError.configurationError "unrecognized arguments")

/-- Python str() of an Optional[str], as interpolated into the f-strings of
source lines 85-86. -/
def pyStr : Option String → String
  | some s => s
  | none => "None"

/-- Source line 85. -/
def discConfigPath (ma : ModelArguments) : String :=
  "google/electra-" ++ pyStr ma.model_size ++ "-discriminator"

/-- Source line 86. -/
def genConfigPath (ma : ModelArguments) : String :=
  "google/electra-" ++ pyStr ma.model_size ++ "-generator"

/-- The generator classes importable at source lines 89, 94, 96. -/
inductive GenClass where
  | AMCLRMLM
  | amosSimsMLM
  | electraSimsMLM
deriving DecidableEq, Repr

/-- The discriminator classes importable at source lines 89, 94, 96. -/
inductive DiscClass where
  | AMCLR
  | amosSimsElectra
  | electraSimsElectra
deriving DecidableEq, Repr

/-- Source lines 88-98: the three-way dispatch on model_args.model_type.
In Python, model_type is an optional string and the comparison is equality,
so None and every string other than AMCLR and AMOS reach the final else. -/
def selectModels (model_type : Option String) : GenClass × DiscClass :=
  if model_type = some "AMCLR" then
    (GenClass.AMCLRMLM, DiscClass.AMCLR)
  else if model_type = some "AMOS" then
    (GenClass.amosSimsMLM, DiscClass.amosSimsElectra)
  else
    (GenClass.electraSimsMLM, DiscClass.electraSimsElectra)

/-- A pretrained ELECTRA configuration fetched from the registry. -/
structure ElectraConfig where
  name : String
  hidden_size : Nat
  vocab_size : Nat
deriving DecidableEq, Repr

/-- A pretrained tokenizer fetched from the registry (source line 100). -/
structure Tokenizer where
  name : String
  all_special_ids : List Nat
deriving DecidableEq, Repr

/-- The materialized Arrow table (source line 81). -/
structure ArrowTable where
  rows : Nat
deriving DecidableEq, Repr

/-- Source line 83: Dataset(arrow_table=table). -/
structure HFDataset where
  arrow_table : ArrowTable
deriving DecidableEq, Repr

/-- The request built by source lines 68-78: ds.dataset over a gcsfs
filesystem with a hard-coded project, format ipc and hive partitioning. -/
structure DatasetRequest where
  source : Option String
  format : String
  partitioning : String
  project : String
deriving DecidableEq, Repr

/-- Source lines 68-78: the only argument-dependent part of the request is
the source path; format, partitioning and storage project are literals. -/
def datasetRequest (da : DataTrainingArguments) : DatasetRequest :=
  { source := da.dataset_name,
    format := "ipc",
    partitioning := "hive",
    project := "tribal-octane-442108-e7" }

/-- Modelled from the spec: random initialization downstream of set_seed is a
deterministic function of the global RNG state (the model classes live in
src.amclr modules that are not part of this file); one PRNG draw. -/
def initWeights (rngState : Nat) : Nat :=
  (rngState * 1103515245 + 12345) % 2 ^ 31

/-- A generator instance (source line 103): constructed from the generator
configuration and the tokenizer special-token ids; weights drawn from the
seeded global RNG. -/
structure GenModel where
  cls : GenClass
  config : ElectraConfig
  special_ids : List Nat
  weights : Nat
deriving DecidableEq, Repr

/-- A discriminator instance (source line 104): constructed from the
discriminator configuration, the same special-token ids, and the generator
instance it exclusively owns. -/
structure DiscModel where
  cls : DiscClass
  config : ElectraConfig
  special_ids : List Nat
  gen : GenModel
  weights : Nat
deriving DecidableEq, Repr

/-- Modelled from the spec: a parameter count determined by the fetched
configuration (the concrete architectures live outside this file). -/
def paramCount (c : ElectraConfig) : Nat :=
  c.hidden_size * c.vocab_size

/-- Parameter count of a generator instance. -/
def GenModel.numParams (g : GenModel) : Nat := paramCount g.config

/-- Source line 107: sum of numel over disc.parameters(); the discriminator
owns the generator as a submodule, so the sum covers both. -/
def DiscModel.numParams (d : DiscModel) : Nat :=
  paramCount d.config + d.gen.numParams

/-- Source line 103: gen = gen_model(config, tokenizer.all_special_ids),
with weights drawn from the RNG seeded at source line 65. -/
def mkGen (ma : ModelArguments) (ta : TrainingArgs) (tok : Tokenizer)
    (genCfg : ElectraConfig) : GenModel :=
  { cls := (selectModels ma.model_type).1,
    config := genCfg,
    special_ids := tok.all_special_ids,
    weights := initWeights ta.seed }

/-- Source line 104: disc = disc_model(config, tokenizer.all_special_ids, gen),
with weights from the second draw of the seeded RNG. -/
def mkDisc (ma : ModelArguments) (ta : TrainingArgs) (tok : Tokenizer)
    (genCfg discCfg : ElectraConfig) : DiscModel :=
  { cls := (selectModels ma.model_type).2,
    config := discCfg,
    special_ids := tok.all_special_ids,
    gen := mkGen ma ta tok genCfg,
    weights := initWeights (ta.seed + 1) }

/-- Source lines 111-116: the trainer object. -/
structure TrainerHandle where
  model : DiscModel
  args : TrainingArgs
  train_dataset : HFDataset
  tokenizer : Tokenizer
deriving DecidableEq, Repr

/-- Source lines 111-116. -/
def mkTrainer (ma : ModelArguments) (ta : TrainingArgs) (table : ArrowTable)
    (tok : Tokenizer) (genCfg discCfg : ElectraConfig) : TrainerHandle :=
  { model := mkDisc ma ta tok genCfg discCfg,
    args := ta,
    train_dataset := { arrow_table := table },
    tokenizer := tok }

/-- Observable events of a run, in source order. -/
inductive Event where
  | setupLogging
  | logTrainingParams
  | setSeed (seed : Nat)
  | loadDataset (req : DatasetRequest)
  | fetchTokenizer (path : String)
  | fetchConfig (path : String)
  | instantiateGen (cls : GenClass) (configName : String) (special_ids : List Nat)
  | instantiateDisc (cls : DiscClass) (configName : String) (special_ids : List Nat)
  | logParams (n : Nat)
  | buildTrainer
  | train
deriving DecidableEq, Repr

/-- True on the setSeed event. -/
def Event.isSetSeedEvt : Event → Bool
  | Event.setSeed _ => true
  | _ => false

/-- True on the dataset-load event. -/
def Event.isLoadDatasetEvt : Event → Bool
  | Event.loadDataset _ => true
  | _ => false

/-- True on the tokenizer-fetch event. -/
def Event.isFetchTokenizerEvt : Event → Bool
  | Event.fetchTokenizer _ => true
  | _ => false

/-- True on the generator-instantiation event. -/
def Event.isInstGenEvt : Event → Bool
  | Event.instantiateGen _ _ _ => true
  | _ => false

/-- True on the discriminator-instantiation event. -/
def Event.isInstDiscEvt : Event → Bool
  | Event.instantiateDisc _ _ _ => true
  | _ => false

/-- True on the parameter-count log event. -/
def Event.isLogParamsEvt : Event → Bool
  | Event.logParams _ => true
  | _ => false

/-- True on the train event. -/
def Event.isTrainEvt : Event → Bool
  | Event.train => true
  | _ => false

/-- Oracle for the external collaborators: the GCS/pyarrow dataset
materialization (lines 69-81), the pretrained registry (lines 100, 103, 104)
and the trainer loop (line 119).  Each may fail with an error. -/
structure World where
  loadArrowDataset : DatasetRequest → Except RunError ArrowTable
  fetchTokenizer : String → Except RunError Tokenizer
  fetchElectraConfig : String → Except RunError ElectraConfig
  trainOutcome : DiscModel → Except RunError Unit

/-- Outcome of a run: the event trace produced up to termination, and either
the trainer that finished training or the error that escaped to the process
boundary. -/
structure RunResult where
  trace : List Event
  result : Except RunError TrainerHandle

/-- The full trace of a successful run, in source order: logging setup (54),
parameter log (62), set_seed (65), dataset load (68-83), tokenizer fetch
(100), generator config fetch and instantiation (103), discriminator config
fetch and instantiation (104), parameter-count log (107-108), trainer
construction (111-116), train (119). -/
def fullTrace (ma : ModelArguments) (da : DataTrainingArguments)
    (ta : TrainingArgs) (tok : Tokenizer) (genCfg discCfg : ElectraConfig)
    (n : Nat) : List Event :=
  [Event.setupLogging, Event.logTrainingParams, Event.setSeed ta.seed,
   Event.loadDataset (datasetRequest da),
   Event.fetchTokenizer (discConfigPath ma),
   Event.fetchConfig (genConfigPath ma),
   Event.instantiateGen (selectModels ma.model_type).1 genCfg.name
     tok.all_special_ids,
   Event.fetchConfig (discConfigPath ma),
   Event.instantiateDisc (selectModels ma.model_type).2 discCfg.name
     tok.all_special_ids,
   Event.logParams n,
   Event.buildTrainer, Event.train]

namespace train

/-- Source lines 48-119: the main entry point.  Linear control flow with no
exception handler: the first failing step terminates the run with its error. -/
def main (args : List (String × String)) (w : World) : RunResult :=
  match parseArgsIntoDataclasses args with
  | Except.error e => { trace := [], result := Except.error e }
  | Except.ok (ma, da, ta) =>
    match w.loadArrowDataset (datasetRequest da) with
    | Except.error e =>
        { trace := [Event.setupLogging, Event.logTrainingParams,
                    Event.setSeed ta.seed,
                    Event.loadDataset (datasetRequest da)],
          result := Except.error e }
    | Except.ok table =>
      match w.fetchTokenizer (discConfigPath ma) with
      | Except.error e =>
          { trace := [Event.setupLogging, Event.logTrainingParams,
                      Event.setSeed ta.seed,
                      Event.loadDataset (datasetRequest da),
                      Event.fetchTokenizer (discConfigPath ma)],
            result := Except.error e }
      | Except.ok tok =>
        match w.fetchElectraConfig (genConfigPath ma) with
        | Except.error e =>
            { trace := [Event.setupLogging, Event.logTrainingParams,
                        Event.setSeed ta.seed,
                        Event.loadDataset (datasetRequest da),
                        Event.fetchTokenizer (discConfigPath ma),
                        Event.fetchConfig (genConfigPath ma)],
              result := Except.error e }
        | Except.ok genCfg =>
          match w.fetchElectraConfig (discConfigPath ma) with
          | Except.error e =>
              { trace := [Event.setupLogging, Event.logTrainingParams,
                          Event.setSeed ta.seed,
                          Event.loadDataset (datasetRequest da),
                          Event.fetchTokenizer (discConfigPath ma),
                          Event.fetchConfig (genConfigPath ma),
                          Event.instantiateGen (selectModels ma.model_type).1
                            genCfg.name tok.all_special_ids,
                          Event.fetchConfig (discConfigPath ma)],
                result := Except.error e }
          | Except.ok discCfg =>
            match w.trainOutcome (mkDisc ma ta tok genCfg discCfg) with
            | Except.error e =>
                { trace := fullTrace ma da ta tok genCfg discCfg
                    (mkDisc ma ta tok genCfg discCfg).numParams,
                  result := Except.error e }
            | Except.ok _ =>
                { trace := fullTrace ma da ta tok genCfg discCfg
                    (mkDisc ma ta tok genCfg discCfg).numParams,
                  result := Except.ok (mkTrainer ma ta table tok genCfg discCfg) }

/-- Source lines 121-123: the TPU spawn entry point; the process index is
unused and main is called unchanged. -/
def _mp_fn (index : Nat) (args : List (String × String)) (w : World) :
    RunResult :=
  main args w

end train

/-- A world in which every external collaborator succeeds. -/
def okWorld : World :=
  { loadArrowDataset := fun _ => Except.ok { rows := 3 },
    fetchTokenizer := fun p =>
      Except.ok { name := p, all_special_ids := [0, 100, 101, 102, 103] },
    fetchElectraConfig := fun p =>
      Except.ok { name := p, hidden_size := 4, vocab_size := 8 },
    trainOutcome := fun _ => Except.ok () }

/-- A well-formed invocation with model_type AMCLR. -/
def goodArgs : List (String × String) :=
  [("model_size", "small"), ("model_type", "AMCLR"),
   ("dataset_name", "gs://bucket/corpus"), ("output_dir", "out"),
   ("seed", "7")]

/-- The ModelArguments record parsed from goodArgs. -/
def goodMA : ModelArguments :=
  { model_size := some "small", model_type := some "AMCLR" }

/-- The DataTrainingArguments record parsed from goodArgs. -/
def goodDA : DataTrainingArguments :=
  { dataset_name := some "gs://bucket/corpus" }

/-- The TrainingArgs record parsed from goodArgs. -/
def goodTA : TrainingArgs := { output_dir := "out", seed := 7 }

/-- The tokenizer okWorld serves for the small discriminator checkpoint. -/
def goodTok : Tokenizer :=
  { name := "google/electra-small-discriminator",
    all_special_ids := [0, 100, 101, 102, 103] }

/-- The generator configuration okWorld serves. -/
def goodGenCfg : ElectraConfig :=
  { name := "google/electra-small-generator", hidden_size := 4, vocab_size := 8 }

/-- The discriminator configuration okWorld serves. -/
def goodDiscCfg : ElectraConfig :=
  { name := "google/electra-small-discriminator", hidden_size := 4,
    vocab_size := 8 }

/-- The trainer produced by main on goodArgs in okWorld. -/
def goodTrainer : TrainerHandle :=
  mkTrainer goodMA goodTA { rows := 3 } goodTok goodGenCfg goodDiscCfg

/-- A world whose dataset directory yields no files in the expected columnar
format, so materialization fails; every other collaborator succeeds. -/
def noFilesWorld : World :=
  { loadArrowDataset := fun _ =>
      Except.error (RunError.dataLoadError "no files matched format ipc"),
    fetchTokenizer := fun p =>
      Except.ok { name := p, all_special_ids := [0, 100, 101, 102, 103] },
    fetchElectraConfig := fun p =>
      Except.ok { name := p, hidden_size := 4, vocab_size := 8 },
    trainOutcome := fun _ => Except.ok () }

theorem main_parse_error (args : List (String × String)) (w : World)
    (e : RunError) (hp : parseArgsIntoDataclasses args = Except.error e) :
    train.main args w = { trace := [], result := Except.error e } := by
  unfold train.main
  rw [hp]

theorem main_load_error (args : List (String × String)) (w : World)
    (ma : ModelArguments) (da : DataTrainingArguments) (ta : TrainingArgs)
    (e : RunError)
    (hp : parseArgsIntoDataclasses args = Except.ok (ma, da, ta))
    (hl : w.loadArrowDataset (datasetRequest da) = Except.error e) :
    train.main args w =
      { trace := [Event.setupLogging, Event.logTrainingParams,
                  Event.setSeed ta.seed, Event.loadDataset (datasetRequest da)],
        result := Except.error e } := by
  unfold train.main
  rw [hp]
  simp only [hl]

theorem main_tok_error (args : List (String × String)) (w : World)
    (ma : ModelArguments) (da : DataTrainingArguments) (ta : TrainingArgs)
    (table : ArrowTable) (e : RunError)
    (hp : parseArgsIntoDataclasses args = Except.ok (ma, da, ta))
    (hl : w.loadArrowDataset (datasetRequest da) = Except.ok table)
    (ht : w.fetchTokenizer (discConfigPath ma) = Except.error e) :
    train.main args w =
      { trace := [Event.setupLogging, Event.logTrainingParams,
                  Event.setSeed ta.seed, Event.loadDataset (datasetRequest da),
                  Event.fetchTokenizer (discConfigPath ma)],
        result := Except.error e } := by
  unfold train.main
  rw [hp]
  simp only [hl, ht]

theorem main_gencfg_error (args : List (String × String)) (w : World)
    (ma : ModelArguments) (da : DataTrainingArguments) (ta : TrainingArgs)
    (table : ArrowTable) (tok : Tokenizer) (e : RunError)
    (hp : parseArgsIntoDataclasses args = Except.ok (ma, da, ta))
    (hl : w.loadArrowDataset (datasetRequest da) = Except.ok table)
    (ht : w.fetchTokenizer (discConfigPath ma) = Except.ok tok)
    (hg : w.fetchElectraConfig (genConfigPath ma) = Except.error e) :
    train.main args w =
      { trace := [Event.setupLogging, Event.logTrainingParams,
                  Event.setSeed ta.seed, Event.loadDataset (datasetRequest da),
                  Event.fetchTokenizer (discConfigPath ma),
                  Event.fetchConfig (genConfigPath ma)],
        result := Except.error e } := by
  unfold train.main
  rw [hp]
  simp only [hl, ht, hg]

theorem main_disccfg_error (args : List (String × String)) (w : World)
    (ma : ModelArguments) (da : DataTrainingArguments) (ta : TrainingArgs)
    (table : ArrowTable) (tok : Tokenizer) (genCfg : ElectraConfig)
    (e : RunError)
    (hp : parseArgsIntoDataclasses args = Except.ok (ma, da, ta))
    (hl : w.loadArrowDataset (datasetRequest da) = Except.ok table)
    (ht : w.fetchTokenizer (discConfigPath ma) = Except.ok tok)
    (hg : w.fetchElectraConfig (genConfigPath ma) = Except.ok genCfg)
    (hd : w.fetchElectraConfig (discConfigPath ma) = Except.error e) :
    train.main args w =
      { trace := [Event.setupLogging, Event.logTrainingParams,
                  Event.setSeed ta.seed, Event.loadDataset (datasetRequest da),
                  Event.fetchTokenizer (discConfigPath ma),
                  Event.fetchConfig (genConfigPath ma),
                  Event.instantiateGen (selectModels ma.model_type).1
                    genCfg.name tok.all_special_ids,
                  Event.fetchConfig (discConfigPath ma)],
        result := Except.error e } := by
  unfold train.main
  rw [hp]
  simp only [hl, ht, hg, hd]

theorem main_train_error (args : List (String × String)) (w : World)
    (ma : ModelArguments) (da : DataTrainingArguments) (ta : TrainingArgs)
    (table : ArrowTable) (tok : Tokenizer) (genCfg discCfg : ElectraConfig)
    (e : RunError)
    (hp : parseArgsIntoDataclasses args = Except.ok (ma, da, ta))
    (hl : w.loadArrowDataset (datasetRequest da) = Except.ok table)
    (ht : w.fetchTokenizer (discConfigPath ma) = Except.ok tok)
    (hg : w.fetchElectraConfig (genConfigPath ma) = Except.ok genCfg)
    (hd : w.fetchElectraConfig (discConfigPath ma) = Except.ok discCfg)
    (htr : w.trainOutcome (mkDisc ma ta tok genCfg discCfg) = Except.error e) :
    train.main args w =
      { trace := fullTrace ma da ta tok genCfg discCfg
          (mkDisc ma ta tok genCfg discCfg).numParams,
        result := Except.error e } := by
  unfold train.main
  rw [hp]
  simp only [hl, ht, hg, hd, htr]

theorem main_ok_eq (args : List (String × String)) (w : World)
    (ma : ModelArguments) (da : DataTrainingArguments) (ta : TrainingArgs)
    (table : ArrowTable) (tok : Tokenizer) (genCfg discCfg : ElectraConfig)
    (hp : parseArgsIntoDataclasses args = Except.ok (ma, da, ta))
    (hl : w.loadArrowDataset (datasetRequest da) = Except.ok table)
    (ht : w.fetchTokenizer (discConfigPath ma) = Except.ok tok)
    (hg : w.fetchElectraConfig (genConfigPath ma) = Except.ok genCfg)
    (hd : w.fetchElectraConfig (discConfigPath ma) = Except.ok discCfg)
    (htr : w.trainOutcome (mkDisc ma ta tok genCfg discCfg) = Except.ok ()) :
    train.main args w =
      { trace := fullTrace ma da ta tok genCfg discCfg
          (mkDisc ma ta tok genCfg discCfg).numParams,
        result := Except.ok (mkTrainer ma ta table tok genCfg discCfg) } := by
  unfold train.main
  rw [hp]
  simp only [hl, ht, hg, hd, htr]

theorem main_ok_elim (args : List (String × String)) (w : World)
    (t : TrainerHandle) (h : (train.main args w).result = Except.ok t) :
    ∃ ma da ta table tok genCfg discCfg,
      parseArgsIntoDataclasses args = Except.ok (ma, da, ta) ∧
      w.loadArrowDataset (datasetRequest da) = Except.ok table ∧
      w.fetchTokenizer (discConfigPath ma) = Except.ok tok ∧
      w.fetchElectraConfig (genConfigPath ma) = Except.ok genCfg ∧
      w.fetchElectraConfig (discConfigPath ma) = Except.ok discCfg ∧
      w.trainOutcome (mkDisc ma ta tok genCfg discCfg) = Except.ok () ∧
      t = mkTrainer ma ta table tok genCfg discCfg ∧
      train.main args w =
        { trace := fullTrace ma da ta tok genCfg discCfg
            (mkDisc ma ta tok genCfg discCfg).numParams,
          result := Except.ok (mkTrainer ma ta table tok genCfg discCfg) } := by
  cases hp : parseArgsIntoDataclasses args with
  | error e => rw [main_parse_error args w e hp] at h; simp at h
  | ok x =>
    obtain ⟨ma, da, ta⟩ := x
    cases hl : w.loadArrowDataset (datasetRequest da) with
    | error e => rw [main_load_error args w ma da ta e hp hl] at h; simp at h
    | ok table =>
      cases ht : w.fetchTokenizer (discConfigPath ma) with
      | error e => rw [main_tok_error args w ma da ta table e hp hl ht] at h; simp at h
      | ok tok =>
        cases hg : w.fetchElectraConfig (genConfigPath ma) with
        | error e =>
          rw [main_gencfg_error args w ma da ta table tok e hp hl ht hg] at h
          simp at h
        | ok genCfg =>
          cases hd : w.fetchElectraConfig (discConfigPath ma) with
          | error e =>
            rw [main_disccfg_error args w ma da ta table tok genCfg e hp hl ht hg hd] at h
            simp at h
          | ok discCfg =>
            cases htr : w.trainOutcome (mkDisc ma ta tok genCfg discCfg) with
            | error e =>
              rw [main_train_error args w ma da ta table tok genCfg discCfg e hp hl ht hg hd htr] at h
              simp at h
            | ok u =>
              cases u
              rw [main_ok_eq args w ma da ta table tok genCfg discCfg hp hl ht hg hd htr] at h
              simp only [Except.ok.injEq] at h
              exact ⟨ma, da, ta, table, tok, genCfg, discCfg, rfl, hl, ht, hg,
                hd, htr, h.symm,
                main_ok_eq args w ma da ta table tok genCfg discCfg hp hl ht hg hd htr⟩

/-- Claim C1: model selection is a fixed three-way dispatch on model_type:
AMCLR selects the pair (AMCLRMLM, AMCLR), AMOS selects the AMOS-module pair,
and every other value — ELECTRA and any unrecognized string included —
selects the default ELECTRA-style pair. -/
theorem selectModels_dispatch_table (s : String)
    (h1 : s ≠ "AMCLR") (h2 : s ≠ "AMOS") :
    selectModels (some "AMCLR") = (GenClass.AMCLRMLM, DiscClass.AMCLR) ∧
    selectModels (some "AMOS") =
      (GenClass.amosSimsMLM, DiscClass.amosSimsElectra) ∧
    selectModels (some "ELECTRA") =
      (GenClass.electraSimsMLM, DiscClass.electraSimsElectra) ∧
    selectModels (some s) =
      (GenClass.electraSimsMLM, DiscClass.electraSimsElectra) := by
  refine ⟨rfl, rfl, rfl, ?_⟩
  simp [selectModels, h1, h2]

/-- Witness for C1 at the concrete unrecognized value FOO. -/
theorem selectModels_dispatch_table_witness :
    selectModels (some "AMCLR") = (GenClass.AMCLRMLM, DiscClass.AMCLR) ∧
    selectModels (some "AMOS") =
      (GenClass.amosSimsMLM, DiscClass.amosSimsElectra) ∧
    selectModels (some "ELECTRA") =
      (GenClass.electraSimsMLM, DiscClass.electraSimsElectra) ∧
    selectModels (some "FOO") =
      (GenClass.electraSimsMLM, DiscClass.electraSimsElectra) :=
  selectModels_dispatch_table "FOO" (by decide) (by decide)

/-- Claim C2 is false on the code: parsing succeeds although model_size holds
the out-of-enum value tiny, and succeeds although model_size, model_type and
dataset_name are all missing; no ConfigurationError is raised for them. -/
theorem parse_no_validation_cex :
    MODEL_SIZES.contains "tiny" = false ∧
    parseArgsIntoDataclasses [("model_size", "tiny"), ("output_dir", "out")] =
      Except.ok ({ model_size := some "tiny", model_type := none },
                 { dataset_name := none },
                 { output_dir := "out", seed := 42 }) ∧
    parseArgsIntoDataclasses [("output_dir", "out")] =
      Except.ok ({ model_size := none, model_type := none },
                 { dataset_name := none },
                 { output_dir := "out", seed := 42 }) :=
  ⟨rfl, rfl, rfl⟩

/-- Claim C2 (amended): model_size, model_type and dataset_name are optional
fields defaulting to None and are never validated against MODEL_SIZES or
MODEL_TYPES: whenever every supplied argument name is recognized and the
externally mandated output_dir is present, parsing succeeds and returns the
raw lookups, missing or out-of-enum values included. -/
theorem parse_optional_fields (args : List (String × String)) (out : String)
    (hk : args.all (fun kv => hfFieldNames.contains kv.1) = true)
    (ho : args.lookup "output_dir" = some out) :
    parseArgsIntoDataclasses args =
      Except.ok ({ model_size := args.lookup "model_size",
                   model_type := args.lookup "model_type" },
                 { dataset_name := args.lookup "dataset_name" },
                 { output_dir := out,
                   seed := ((args.lookup "seed").bind strToNat).getD 42 }) := by
  unfold parseArgsIntoDataclasses
  rw [if_pos hk, ho]

/-- Witness for C2 (amended) at a concrete argument list whose model_size is
outside the declared enumeration. -/
theorem parse_optional_fields_witness :
    parseArgsIntoDataclasses [("model_size", "huge"), ("output_dir", "o")] =
      Except.ok ({ model_size := some "huge", model_type := none },
                 { dataset_name := none },
                 { output_dir := "o", seed := 42 }) :=
  parse_optional_fields [("model_size", "huge"), ("output_dir", "o")] "o"
    rfl rfl

/-- An invocation whose model_type is the unrecognized string FOO. -/
def fooArgs : List (String × String) :=
  [("model_size", "small"), ("model_type", "FOO"),
   ("dataset_name", "gs://bucket/corpus"), ("output_dir", "out"),
   ("seed", "7")]

/-- An invocation carrying the given model_type value: present when some,
omitted entirely when none (the field is optional and defaults to None). -/
def mtArgs : Option String → List (String × String)
  | some s => [("model_size", "small"), ("model_type", s),
               ("dataset_name", "d"), ("output_dir", "o")]
  | none => [("model_size", "small"), ("dataset_name", "d"),
             ("output_dir", "o")]

set_option maxRecDepth 8000 in
/-- Claim C3 is false on the code: FOO is not among MODEL_TYPES, yet the
dispatch substitutes the default ELECTRA-style pair and a run with model_type
FOO completes successfully; no ModelResolutionError is raised. -/
theorem unknown_model_type_cex :
    MODEL_TYPES.contains "FOO" = false ∧
    selectModels (some "FOO") =
      (GenClass.electraSimsMLM, DiscClass.electraSimsElectra) ∧
    (train.main fooArgs okWorld).result.isOk = true :=
  ⟨rfl, rfl, rfl⟩

set_option maxRecDepth 8000 in
/-- Claim C3 (amended): for every model_type value other than AMCLR and
AMOS — unrecognized strings and the missing-field value None included — the
Model Selector substitutes the default ELECTRA-style pair and raises no
error of its own: an invocation carrying that value (or omitting the field,
for None) parses to it, and the run completes successfully in a world where
every external lookup succeeds. -/
theorem unknown_model_type_default_pair (mt : Option String)
    (h1 : mt ≠ some "AMCLR") (h2 : mt ≠ some "AMOS") :
    selectModels mt =
      (GenClass.electraSimsMLM, DiscClass.electraSimsElectra) ∧
    parseArgsIntoDataclasses (mtArgs mt) =
      Except.ok ({ model_size := some "small", model_type := mt },
                 { dataset_name := some "d" },
                 { output_dir := "o", seed := 42 }) ∧
    (train.main (mtArgs mt) okWorld).result.isOk = true := by
  refine ⟨by simp [selectModels, h1, h2], ?_, ?_⟩
  · cases mt with
    | none => rfl
    | some s => rfl
  · cases mt with
    | none => rfl
    | some s => rfl

set_option maxRecDepth 8000 in
/-- Witness for C3 (amended) at the concrete value None, the invocation
omitting model_type altogether. -/
theorem unknown_model_type_default_pair_witness :
    selectModels none =
      (GenClass.electraSimsMLM, DiscClass.electraSimsElectra) ∧
    parseArgsIntoDataclasses (mtArgs none) =
      Except.ok ({ model_size := some "small", model_type := none },
                 { dataset_name := some "d" },
                 { output_dir := "o", seed := 42 }) ∧
    (train.main (mtArgs none) okWorld).result.isOk = true :=
  unknown_model_type_default_pair none (by decide) (by decide)

/-- Claim C10: the TPU spawn entry point ignores its process index entirely:
for every index value it performs exactly the computation of a direct call to
main, so its behavior is independent of which process invokes it. -/
theorem mp_fn_ignores_index (i j : Nat) (args : List (String × String))
    (w : World) :
    train._mp_fn i args w = train.main args w ∧
    train._mp_fn i args w = train._mp_fn j args w :=
  ⟨rfl, rfl⟩

/-- Claim C4: on every run that reaches model instantiation, exactly one
(generator, discriminator) pair is instantiated, determined solely by
model_type; the generator is instantiated first, from the generator
configuration and the tokenizer special-token id set, and the discriminator
second, from the discriminator configuration, the same id set, and that
generator instance. -/
theorem single_pair_instantiation (args : List (String × String)) (w : World)
    (t : TrainerHandle) (h : (train.main args w).result = Except.ok t) :
    ∃ ma da ta,
      parseArgsIntoDataclasses args = Except.ok (ma, da, ta) ∧
      t.model.cls = (selectModels ma.model_type).2 ∧
      t.model.gen.cls = (selectModels ma.model_type).1 ∧
      w.fetchElectraConfig (genConfigPath ma) =
        Except.ok t.model.gen.config ∧
      w.fetchElectraConfig (discConfigPath ma) = Except.ok t.model.config ∧
      t.model.special_ids = t.tokenizer.all_special_ids ∧
      t.model.gen.special_ids = t.tokenizer.all_special_ids ∧
      ((train.main args w).trace.filter Event.isInstGenEvt).length = 1 ∧
      ((train.main args w).trace.filter Event.isInstDiscEvt).length = 1 ∧
      ∃ i j,
        (train.main args w).trace.findIdx? Event.isInstGenEvt = some i ∧
        (train.main args w).trace.findIdx? Event.isInstDiscEvt = some j ∧
        i < j := by
  obtain ⟨ma, da, ta, table, tok, genCfg, discCfg, hp, hl, ht, hg, hd, htr,
    hteq, hmain⟩ := main_ok_elim args w t h
  subst hteq
  refine ⟨ma, da, ta, hp, rfl, rfl, hg, hd, rfl, rfl, ?_, ?_,
    ⟨6, 8, ?_, ?_, by omega⟩⟩
  · rw [hmain]; rfl
  · rw [hmain]; rfl
  · rw [hmain]; rfl
  · rw [hmain]; rfl

set_option maxRecDepth 8000 in
/-- Witness for C4 on a successful AMCLR run in okWorld. -/
theorem single_pair_instantiation_witness :
    ∃ ma da ta,
      parseArgsIntoDataclasses goodArgs = Except.ok (ma, da, ta) ∧
      goodTrainer.model.cls = (selectModels ma.model_type).2 ∧
      goodTrainer.model.gen.cls = (selectModels ma.model_type).1 ∧
      okWorld.fetchElectraConfig (genConfigPath ma) =
        Except.ok goodTrainer.model.gen.config ∧
      okWorld.fetchElectraConfig (discConfigPath ma) =
        Except.ok goodTrainer.model.config ∧
      goodTrainer.model.special_ids = goodTrainer.tokenizer.all_special_ids ∧
      goodTrainer.model.gen.special_ids =
        goodTrainer.tokenizer.all_special_ids ∧
      ((train.main goodArgs okWorld).trace.filter Event.isInstGenEvt).length
        = 1 ∧
      ((train.main goodArgs okWorld).trace.filter Event.isInstDiscEvt).length
        = 1 ∧
      ∃ i j,
        (train.main goodArgs okWorld).trace.findIdx? Event.isInstGenEvt =
          some i ∧
        (train.main goodArgs okWorld).trace.findIdx? Event.isInstDiscEvt =
          some j ∧
        i < j :=
  single_pair_instantiation goodArgs okWorld goodTrainer (by rfl)

/-- Claim C5: the dataset load runs to completion before the Model Selector:
whenever the loader fails — as with a DataLoadError for a path holding zero
files in the expected columnar format — the run terminates with exactly that
error, the trace ends at the load, and no tokenizer fetch or model
instantiation occurs. -/
theorem dataset_load_failfast (args : List (String × String)) (w : World)
    (ma : ModelArguments) (da : DataTrainingArguments) (ta : TrainingArgs)
    (e : RunError)
    (hp : parseArgsIntoDataclasses args = Except.ok (ma, da, ta))
    (hl : w.loadArrowDataset (datasetRequest da) = Except.error e) :
    (train.main args w).result = Except.error e ∧
    (train.main args w).trace =
      [Event.setupLogging, Event.logTrainingParams, Event.setSeed ta.seed,
       Event.loadDataset (datasetRequest da)] ∧
    (train.main args w).trace.all
      (fun ev => !(Event.isFetchTokenizerEvt ev) && !(Event.isInstGenEvt ev)
        && !(Event.isInstDiscEvt ev)) = true := by
  rw [main_load_error args w ma da ta e hp hl]
  exact ⟨rfl, rfl, rfl⟩

set_option maxRecDepth 8000 in
/-- Witness for C5 in a world whose dataset path matches no files. -/
theorem dataset_load_failfast_witness :
    (train.main goodArgs noFilesWorld).result =
      Except.error (RunError.dataLoadError "no files matched format ipc") ∧
    (train.main goodArgs noFilesWorld).trace =
      [Event.setupLogging, Event.logTrainingParams, Event.setSeed goodTA.seed,
       Event.loadDataset (datasetRequest goodDA)] ∧
    (train.main goodArgs noFilesWorld).trace.all
      (fun ev => !(Event.isFetchTokenizerEvt ev) && !(Event.isInstGenEvt ev)
        && !(Event.isInstDiscEvt ev)) = true :=
  dataset_load_failfast goodArgs noFilesWorld goodMA goodDA goodTA
    (RunError.dataLoadError "no files matched format ipc") rfl rfl

/-- Claim C6: the global seed is set before any model instantiation, and the
run is deterministic in it: two successful runs over the same invocation
arguments whose registries serve the same configurations produce identical
generator and discriminator weights and identical reported parameter
counts. -/
theorem seed_reproducibility (args : List (String × String)) (w1 w2 : World)
    (t1 t2 : TrainerHandle)
    (h1 : (train.main args w1).result = Except.ok t1)
    (h2 : (train.main args w2).result = Except.ok t2)
    (hc : t1.model.config = t2.model.config ∧
      t1.model.gen.config = t2.model.gen.config) :
    t1.model.weights = t2.model.weights ∧
    t1.model.gen.weights = t2.model.gen.weights ∧
    t1.model.numParams = t2.model.numParams ∧
    Event.logParams t1.model.numParams ∈ (train.main args w1).trace ∧
    Event.logParams t2.model.numParams ∈ (train.main args w2).trace ∧
    ∃ i j,
      (train.main args w1).trace.findIdx? Event.isSetSeedEvt = some i ∧
      (train.main args w1).trace.findIdx? Event.isInstGenEvt = some j ∧
      i < j := by
  obtain ⟨ma1, da1, ta1, tb1, tok1, g1, d1, hp1, hl1, htk1, hg1, hd1, htr1,
    hteq1, hm1⟩ := main_ok_elim args w1 t1 h1
  obtain ⟨ma2, da2, ta2, tb2, tok2, g2, d2, hp2, hl2, htk2, hg2, hd2, htr2,
    hteq2, hm2⟩ := main_ok_elim args w2 t2 h2
  subst hteq1
  subst hteq2
  have hpe := hp1.symm.trans hp2
  simp only [Except.ok.injEq, Prod.mk.injEq] at hpe
  obtain ⟨hma, hda, hta⟩ := hpe
  subst hma
  subst hda
  subst hta
  obtain ⟨hcd, hcg⟩ := hc
  simp only [mkTrainer, mkDisc, mkGen] at hcd hcg
  subst hcd
  subst hcg
  refine ⟨rfl, rfl, rfl, ?_, ?_, ⟨2, 6, ?_, ?_, by omega⟩⟩
  · rw [hm1]; simp [mkTrainer, mkDisc, mkGen, fullTrace]
  · rw [hm2]; simp [mkTrainer, mkDisc, mkGen, fullTrace]
  · rw [hm1]; rfl
  · rw [hm1]; rfl

set_option maxRecDepth 8000 in
/-- Witness for C6 on two identical successful runs. -/
theorem seed_reproducibility_witness :
    goodTrainer.model.weights = goodTrainer.model.weights ∧
    goodTrainer.model.gen.weights = goodTrainer.model.gen.weights ∧
    goodTrainer.model.numParams = goodTrainer.model.numParams ∧
    Event.logParams goodTrainer.model.numParams ∈
      (train.main goodArgs okWorld).trace ∧
    Event.logParams goodTrainer.model.numParams ∈
      (train.main goodArgs okWorld).trace ∧
    ∃ i j,
      (train.main goodArgs okWorld).trace.findIdx? Event.isSetSeedEvt =
        some i ∧
      (train.main goodArgs okWorld).trace.findIdx? Event.isInstGenEvt =
        some j ∧
      i < j :=
  seed_reproducibility goodArgs okWorld okWorld goodTrainer goodTrainer
    (by rfl) (by rfl) ⟨rfl, rfl⟩

/-- Claim C7: no error is caught or recovered anywhere in the orchestration
layer: whatever step fails first — argument parsing, dataset load, tokenizer
fetch, either configuration fetch, or training — its error is the run result
unchanged, and a successful result requires every step to have succeeded;
there is no retry and no fallback. -/
theorem errors_propagate_uncaught (args : List (String × String))
    (w : World) :
    (∀ e, parseArgsIntoDataclasses args = Except.error e →
      (train.main args w).result = Except.error e) ∧
    (∀ ma da ta e, parseArgsIntoDataclasses args = Except.ok (ma, da, ta) →
      w.loadArrowDataset (datasetRequest da) = Except.error e →
      (train.main args w).result = Except.error e) ∧
    (∀ ma da ta table e,
      parseArgsIntoDataclasses args = Except.ok (ma, da, ta) →
      w.loadArrowDataset (datasetRequest da) = Except.ok table →
      w.fetchTokenizer (discConfigPath ma) = Except.error e →
      (train.main args w).result = Except.error e) ∧
    (∀ ma da ta table tok e,
      parseArgsIntoDataclasses args = Except.ok (ma, da, ta) →
      w.loadArrowDataset (datasetRequest da) = Except.ok table →
      w.fetchTokenizer (discConfigPath ma) = Except.ok tok →
      w.fetchElectraConfig (genConfigPath ma) = Except.error e →
      (train.main args w).result = Except.error e) ∧
    (∀ ma da ta table tok genCfg e,
      parseArgsIntoDataclasses args = Except.ok (ma, da, ta) →
      w.loadArrowDataset (datasetRequest da) = Except.ok table →
      w.fetchTokenizer (discConfigPath ma) = Except.ok tok →
      w.fetchElectraConfig (genConfigPath ma) = Except.ok genCfg →
      w.fetchElectraConfig (discConfigPath ma) = Except.error e →
      (train.main args w).result = Except.error e) ∧
    (∀ ma da ta table tok genCfg discCfg e,
      parseArgsIntoDataclasses args = Except.ok (ma, da, ta) →
      w.loadArrowDataset (datasetRequest da) = Except.ok table →
      w.fetchTokenizer (discConfigPath ma) = Except.ok tok →
      w.fetchElectraConfig (genConfigPath ma) = Except.ok genCfg →
      w.fetchElectraConfig (discConfigPath ma) = Except.ok discCfg →
      w.trainOutcome (mkDisc ma ta tok genCfg discCfg) = Except.error e →
      (train.main args w).result = Except.error e) ∧
    (∀ t, (train.main args w).result = Except.ok t →
      ∃ ma da ta table tok genCfg discCfg,
        parseArgsIntoDataclasses args = Except.ok (ma, da, ta) ∧
        w.loadArrowDataset (datasetRequest da) = Except.ok table ∧
        w.fetchTokenizer (discConfigPath ma) = Except.ok tok ∧
        w.fetchElectraConfig (genConfigPath ma) = Except.ok genCfg ∧
        w.fetchElectraConfig (discConfigPath ma) = Except.ok discCfg ∧
        w.trainOutcome (mkDisc ma ta tok genCfg discCfg) = Except.ok ()) := by
  refine ⟨?_, ?_, ?_, ?_, ?_, ?_, ?_⟩
  · intro e hp
    rw [main_parse_error args w e hp]
  · intro ma da ta e hp hl
    rw [main_load_error args w ma da ta e hp hl]
  · intro ma da ta table e hp hl ht
    rw [main_tok_error args w ma da ta table e hp hl ht]
  · intro ma da ta table tok e hp hl ht hg
    rw [main_gencfg_error args w ma da ta table tok e hp hl ht hg]
  · intro ma da ta table tok genCfg e hp hl ht hg hd
    rw [main_disccfg_error args w ma da ta table tok genCfg e hp hl ht hg hd]
  · intro ma da ta table tok genCfg discCfg e hp hl ht hg hd htr
    rw [main_train_error args w ma da ta table tok genCfg discCfg e
      hp hl ht hg hd htr]
  · intro t h
    obtain ⟨ma, da, ta, table, tok, genCfg, discCfg, hp, hl, ht, hg, hd, htr,
      _, _⟩ := main_ok_elim args w t h
    exact ⟨ma, da, ta, table, tok, genCfg, discCfg, hp, hl, ht, hg, hd, htr⟩

set_option maxRecDepth 8000 in
/-- Witness for C7: a failing dataset load surfaces unchanged as the result
of a concrete run. -/
theorem errors_propagate_uncaught_witness :
    (train.main goodArgs noFilesWorld).result =
      Except.error (RunError.dataLoadError "no files matched format ipc") :=
  (errors_propagate_uncaught goodArgs noFilesWorld).2.1 goodMA goodDA goodTA
    (RunError.dataLoadError "no files matched format ipc") rfl rfl

/-- Claim C8: the trainer object is built from exactly the discriminator
model (not the generator), the hyperparameter bag, the materialized dataset
and the tokenizer, and the discriminator parameter count is logged before
the training procedure is invoked. -/
theorem trainer_wraps_discriminator (args : List (String × String))
    (w : World) (t : TrainerHandle)
    (h : (train.main args w).result = Except.ok t) :
    ∃ ma da ta,
      parseArgsIntoDataclasses args = Except.ok (ma, da, ta) ∧
      t.args = ta ∧
      w.loadArrowDataset (datasetRequest da) =
        Except.ok t.train_dataset.arrow_table ∧
      w.fetchTokenizer (discConfigPath ma) = Except.ok t.tokenizer ∧
      t.model.cls = (selectModels ma.model_type).2 ∧
      t.model.gen.cls = (selectModels ma.model_type).1 ∧
      Event.logParams t.model.numParams ∈ (train.main args w).trace ∧
      ∃ i j,
        (train.main args w).trace.findIdx? Event.isLogParamsEvt = some i ∧
        (train.main args w).trace.findIdx? Event.isTrainEvt = some j ∧
        i < j := by
  obtain ⟨ma, da, ta, table, tok, genCfg, discCfg, hp, hl, ht, hg, hd, htr,
    hteq, hmain⟩ := main_ok_elim args w t h
  subst hteq
  refine ⟨ma, da, ta, hp, rfl, hl, ht, rfl, rfl, ?_,
    ⟨9, 11, ?_, ?_, by omega⟩⟩
  · rw [hmain]; simp [mkTrainer, mkDisc, mkGen, fullTrace]
  · rw [hmain]; rfl
  · rw [hmain]; rfl

set_option maxRecDepth 8000 in
/-- Witness for C8 on a successful AMCLR run in okWorld. -/
theorem trainer_wraps_discriminator_witness :
    ∃ ma da ta,
      parseArgsIntoDataclasses goodArgs = Except.ok (ma, da, ta) ∧
      goodTrainer.args = ta ∧
      okWorld.loadArrowDataset (datasetRequest da) =
        Except.ok goodTrainer.train_dataset.arrow_table ∧
      okWorld.fetchTokenizer (discConfigPath ma) =
        Except.ok goodTrainer.tokenizer ∧
      goodTrainer.model.cls = (selectModels ma.model_type).2 ∧
      goodTrainer.model.gen.cls = (selectModels ma.model_type).1 ∧
      Event.logParams goodTrainer.model.numParams ∈
        (train.main goodArgs okWorld).trace ∧
      ∃ i j,
        (train.main goodArgs okWorld).trace.findIdx? Event.isLogParamsEvt =
          some i ∧
        (train.main goodArgs okWorld).trace.findIdx? Event.isTrainEvt =
          some j ∧
        i < j :=
  trainer_wraps_discriminator goodArgs okWorld goodTrainer (by rfl)

theorem loadDataset_event_shape (args : List (String × String)) (w : World)
    (req : DatasetRequest)
    (h : Event.loadDataset req ∈ (train.main args w).trace) :
    ∃ da, req = datasetRequest da := by
  cases hp : parseArgsIntoDataclasses args with
  | error e =>
    rw [main_parse_error args w e hp] at h
    simp at h
  | ok x =>
    obtain ⟨ma, da, ta⟩ := x
    refine ⟨da, ?_⟩
    cases hl : w.loadArrowDataset (datasetRequest da) with
    | error e =>
      rw [main_load_error args w ma da ta e hp hl] at h
      simp at h
      exact h
    | ok table =>
      cases ht : w.fetchTokenizer (discConfigPath ma) with
      | error e =>
        rw [main_tok_error args w ma da ta table e hp hl ht] at h
        simp at h
        exact h
      | ok tok =>
        cases hg : w.fetchElectraConfig (genConfigPath ma) with
        | error e =>
          rw [main_gencfg_error args w ma da ta table tok e hp hl ht hg] at h
          simp at h
          exact h
        | ok genCfg =>
          cases hd : w.fetchElectraConfig (discConfigPath ma) with
          | error e =>
            rw [main_disccfg_error args w ma da ta table tok genCfg e
              hp hl ht hg hd] at h
            simp at h
            exact h
          | ok discCfg =>
            cases htr : w.trainOutcome (mkDisc ma ta tok genCfg discCfg) with
            | error e =>
              rw [main_train_error args w ma da ta table tok genCfg discCfg e
                hp hl ht hg hd htr] at h
              simp [fullTrace] at h
              exact h
            | ok u =>
              cases u
              rw [main_ok_eq args w ma da ta table tok genCfg discCfg
                hp hl ht hg hd htr] at h
              simp [fullTrace] at h
              exact h

/-- Claim C9: every dataset load issued by a run reads the path as Arrow IPC
with Hive-style partitioning over the GCS project
tribal-octane-442108-e7; no invocation argument can change the format or the
storage project. -/
theorem dataset_request_fixed_constants (args : List (String × String))
    (w : World) (req : DatasetRequest)
    (h : Event.loadDataset req ∈ (train.main args w).trace) :
    req.format = "ipc" ∧ req.partitioning = "hive" ∧
    req.project = "tribal-octane-442108-e7" := by
  obtain ⟨da, hreq⟩ := loadDataset_event_shape args w req h
  subst hreq
  exact ⟨rfl, rfl, rfl⟩

set_option maxRecDepth 8000 in
/-- Witness for C9 on the load event of a concrete successful run. -/
theorem dataset_request_fixed_constants_witness :
    (datasetRequest goodDA).format = "ipc" ∧
    (datasetRequest goodDA).partitioning = "hive" ∧
    (datasetRequest goodDA).project = "tribal-octane-442108-e7" :=
  dataset_request_fixed_constants goodArgs okWorld (datasetRequest goodDA)
    (by rw [(by rfl : (train.main goodArgs okWorld).trace =
        fullTrace goodMA goodDA goodTA goodTok goodGenCfg goodDiscCfg
          (mkDisc goodMA goodTA goodTok goodGenCfg goodDiscCfg).numParams)]
        ; simp [fullTrace])
